import Mathlib

/-!
Verification development for the CYBER-HERO repository (a Python
cybersecurity-education game).  The definitions below are a shallow
embedding of the game-logic parts of the source:

* `src/src/missions/mission1_network_recon.py`  (`Mission1NetworkRecon`)
* `src/src/missions/mission2_packet_analysis.py` (`Mission2PacketAnalysis`)
* `src/src/missions/mission3_pcap_analysis.py`  (`Mission3PcapAnalysis`)
* `src/src/systems/network_generator.py`        (`NetworkGenerator`)
* `src/src/core/network_simulation.py`          (`NetworkSimulator`)
* `src/src/core/save_load.py`                   (`SaveLoadManager`)
* `src/src/core/settings_manager.py`            (`SettingsManager`)

Modelling conventions:

* Python strings are Lean `String`; `str.strip`, `str.lower`, `str.upper`
  and `str.replace` with one-character arguments are modelled on ASCII
  (all string literals involved are ASCII).
* Python's `random` module is modelled as an explicit stream of natural
  numbers (`Rng`); each call of a `random` function consumes one or more
  stream values.  Claims about determinism or about all possible
  generated values quantify over the stream.
* Python dictionaries holding files/settings are modelled as association
  lists with first-match lookup; `json.dump` followed by `json.load` is
  modelled as storing and retrieving the record itself, with a per-file
  oracle (`readOk`) standing for read or parse failures.
* Fallible file operations carry explicit success oracles
  (`writeOk`, `readOk`, `removeOk`); the repository's `try/except`
  blocks become total Lean functions that surface failure through their
  return values exactly as the Python code does.
-/

namespace CyberHero

/-! ## ASCII string primitives used by the validation code -/

/-- Characters that Python's `str.strip()` removes by default. -/
def pyIsSpace (c : Char) : Bool :=
  c = ' ' || c = '\t' || c = '\n' || c = '\r' || c = '\x0b' || c = '\x0c'

/-- Python `str.strip()`: drop whitespace from both ends. -/
def pyStrip (s : String) : String :=
  ⟨((s.data.dropWhile pyIsSpace).reverse.dropWhile pyIsSpace).reverse⟩

/-- Lower-case one ASCII character (codepoints 65-90 map to 97-122). -/
def lowerChar (c : Char) : Char :=
  if 65 ≤ c.toNat ∧ c.toNat ≤ 90 then Char.ofNat (c.toNat + 32) else c

/-- Upper-case one ASCII character (codepoints 97-122 map to 65-90). -/
def upperChar (c : Char) : Char :=
  if 97 ≤ c.toNat ∧ c.toNat ≤ 122 then Char.ofNat (c.toNat - 32) else c

/-- Python `str.lower()` on ASCII data. -/
def pyLower (s : String) : String := ⟨s.data.map lowerChar⟩

/-- Python `str.upper()` on ASCII data. -/
def pyUpper (s : String) : String := ⟨s.data.map upperChar⟩

/-- Python `str.replace("-", ":")`. -/
def dashToColon (s : String) : String :=
  ⟨s.data.map (fun c => if c = '-' then ':' else c)⟩

/-- Digit run of a Python integer literal: digits separated by single
underscores, as accepted by `int(...)`. Accumulates onto `acc`. -/
def pyDigitsAux : Nat → List Char → Option Nat
  | acc, [] => some acc
  | acc, '_' :: c :: rest =>
      if c.isDigit then pyDigitsAux (acc * 10 + (c.toNat - 48)) rest else none
  | acc, c :: rest =>
      if c.isDigit then pyDigitsAux (acc * 10 + (c.toNat - 48)) rest else none

/-- Parse a nonempty digit run (first char must be a digit). -/
def pyIntDigits : List Char → Option Nat
  | [] => none
  | c :: rest => if c.isDigit then pyDigitsAux (c.toNat - 48) rest else none

/-- Python `int(s)` on ASCII decimal strings: optional surrounding
whitespace, optional sign, digits with single underscores between them;
everything else raises `ValueError` (here: `none`). -/
def pyInt (s : String) : Option Int :=
  match (pyStrip s).data with
  | [] => none
  | '+' :: rest => (pyIntDigits rest).map (fun n => (n : Int))
  | '-' :: rest => (pyIntDigits rest).map (fun n => -(n : Int))
  | l => (pyIntDigits l).map (fun n => (n : Int))

/-- First-match association-list lookup (Python `dict[key]` access for the
literal dictionaries of the source). -/
def lookupPair (l : List (String × String)) (k : String) : Option String :=
  (l.find? (fun kv => kv.1 == k)).map (fun kv => kv.2)

/-! ## Mission 3 (`Mission3PcapAnalysis`) answer validation -/

/-- `Mission3PcapAnalysis.self.correct_answers`. -/
def m3CorrectAnswers : List (String × String) :=
  [("dest_mac", "00:1e:ec:26:d2:ac"),
   ("src_mac", "26:02:06:49:6b:31"),
   ("src_ip", "46.105.99.163"),
   ("dest_ip", "192.168.4.2"),
   ("packet_length", "66"),
   ("protocol", "TCP"),
   ("link_type", "Ethernet"),
   ("timestamp", "15/06/2024")]

/-- The per-field normalisation `validate_answer` applies on top of
strip+lower: dashes become colons on the two MAC fields. -/
def m3Normalize (field_key s : String) : String :=
  if field_key = "dest_mac" || field_key = "src_mac" then dashToColon s else s

/-- `Mission3PcapAnalysis.validate_answer`: unknown field keys are
rejected; both sides are stripped and lower-cased; for the two MAC
fields dashes are additionally normalised to colons on both sides. -/
def m3ValidateAnswer (field_key value : String) : Bool :=
  match lookupPair m3CorrectAnswers field_key with
  | none => false
  | some ans =>
      let correct := pyLower (pyStrip ans)
      let submitted := pyLower (pyStrip value)
      if field_key = "dest_mac" || field_key = "src_mac" then
        dashToColon submitted = dashToColon correct
      else
        submitted = correct

/-! ## Generic objective bookkeeping

All three mission classes implement `is_mission_complete` and
`get_completion_percentage` identically over their objectives
dictionaries; `Objective` captures the two fields those methods read. -/

structure Objective where
  required : Bool
  completed : Bool
deriving DecidableEq

/-- `is_mission_complete`: every required objective is completed. -/
def missionComplete (objs : List Objective) : Bool :=
  objs.all (fun o => !o.required || o.completed)

/-- `get_completion_percentage`:
`(completed / total_required) * 100 if total_required > 0 else 0`,
with the Python float arithmetic carried out in `ℚ` (all quantities
involved are small integers, represented exactly by Python floats). -/
def completionPercentage (objs : List Objective) : ℚ :=
  let total := (objs.filter (fun o => o.required)).length
  let done := (objs.filter (fun o => o.required && o.completed)).length
  if 0 < total then ((done : ℚ) / (total : ℚ)) * 100 else 0

/-! ## Mission 2 (`Mission2PacketAnalysis`) -/

/-- Keys of `Mission2PacketAnalysis.threat_types`. -/
def threatTypeKeys : List String :=
  ["telnet_scan", "port_scan", "discovery", "printer_exploit", "exfiltration"]

/-- `objectives['identify_threats']['target_threats']`. -/
def targetThreats : List String :=
  ["telnet_scan", "port_scan", "discovery", "printer_exploit", "exfiltration"]

/-- The completion flags and mutable counters of the Mission 2
objectives dictionary (titles, descriptions and hints are immutable
strings and are omitted; every objective has `required` True). -/
structure M2Objectives where
  download_wireshark : Bool
  open_wireshark : Bool
  find_suspicious_ip : Bool
  identify_threats : Bool
  found_threats : List String
  complete_report : Bool
deriving DecidableEq

/-- Mutable state of a `Mission2PacketAnalysis` object.  The
`downloaded_tools` list lives in the shared `profile_data` dictionary
and may be changed by other code, so methods that read it take it as an
argument. -/
structure Mission2 where
  objectives : M2Objectives
  wireshark_opened : Bool
deriving DecidableEq

/-- `Mission2PacketAnalysis.__init__`: all objectives start incomplete. -/
def m2Init : Mission2 :=
  { objectives :=
      { download_wireshark := false, open_wireshark := false,
        find_suspicious_ip := false, identify_threats := false,
        found_threats := [], complete_report := false },
    wireshark_opened := false }

/-- `Mission2PacketAnalysis.check_wireshark_downloaded`. -/
def m2CheckWiresharkDownloaded (tools : List String) (m : Mission2) :
    Bool × Mission2 :=
  if "wireshark" ∈ tools then
    (true, { m with objectives := { m.objectives with download_wireshark := true } })
  else (false, m)

/-- `Mission2PacketAnalysis.mark_wireshark_opened`. -/
def m2MarkWiresharkOpened (tools : List String) (m : Mission2) : Mission2 :=
  let r := m2CheckWiresharkDownloaded tools m
  if r.1 then
    { r.2 with wireshark_opened := true,
               objectives := { r.2.objectives with open_wireshark := true } }
  else r.2

/-- `Mission2PacketAnalysis.submit_suspicious_ip`. -/
def m2SubmitSuspiciousIp (ip : String) (m : Mission2) : Bool × Mission2 :=
  if pyStrip ip = "192.168.1.66" then
    (true, { m with objectives := { m.objectives with find_suspicious_ip := true } })
  else (false, m)

/-- `Mission2PacketAnalysis.report_threat_found`: an exact (untrimmed,
case-sensitive) membership test against the `threat_types` keys; a new
valid threat is appended to `found_threats`, and `identify_threats` is
completed once every target threat has been found. -/
def m2ReportThreatFound (threat_type : String) (m : Mission2) :
    Bool × Mission2 :=
  if threat_type ∈ threatTypeKeys then
    let found :=
      if threat_type ∈ m.objectives.found_threats then m.objectives.found_threats
      else m.objectives.found_threats ++ [threat_type]
    let allFound := targetThreats.all (fun t => decide (t ∈ found))
    (true,
     { m with objectives :=
        { m.objectives with
          found_threats := found,
          identify_threats := if allFound then true else m.objectives.identify_threats } })
  else (false, m)

/-- `Mission2PacketAnalysis.check_report_complete`. -/
def m2CheckReportComplete (m : Mission2) : Bool × Mission2 :=
  if m.objectives.find_suspicious_ip && m.objectives.identify_threats then
    (true, { m with objectives := { m.objectives with complete_report := true } })
  else (false, m)

/-- `Mission2PacketAnalysis.update_progress`. -/
def m2UpdateProgress (tools : List String) (m : Mission2) : Mission2 :=
  let m1 := (m2CheckWiresharkDownloaded tools m).2
  let m2 :=
    if m1.wireshark_opened then
      { m1 with objectives := { m1.objectives with open_wireshark := true } }
    else m1
  (m2CheckReportComplete m2).2

/-- Objectives dictionary of Mission 2 as seen by
`is_mission_complete` / `get_completion_percentage` (dict order;
`required` is True for all five objectives). -/
def m2ObjectiveList (m : Mission2) : List Objective :=
  [⟨true, m.objectives.download_wireshark⟩,
   ⟨true, m.objectives.open_wireshark⟩,
   ⟨true, m.objectives.find_suspicious_ip⟩,
   ⟨true, m.objectives.identify_threats⟩,
   ⟨true, m.objectives.complete_report⟩]

/-- `Mission2PacketAnalysis.is_mission_complete`. -/
def m2IsMissionComplete (m : Mission2) : Bool :=
  missionComplete (m2ObjectiveList m)

/-- `Mission2PacketAnalysis.get_completion_percentage`. -/
def m2GetCompletionPercentage (m : Mission2) : ℚ :=
  completionPercentage (m2ObjectiveList m)

/-! ## Mission 3 (`Mission3PcapAnalysis`) state -/

/-- Completion flags of the Mission 3 objectives dictionary (every
objective has `required` True). -/
structure M3Objectives where
  download_pcap_analyzer : Bool
  open_pcap_analyzer : Bool
  extract_mac_dest : Bool
  extract_mac_src : Bool
  extract_ip_src : Bool
  extract_ip_dest : Bool
  identify_protocol : Bool
  complete_report : Bool
deriving DecidableEq

/-- Mutable state of a `Mission3PcapAnalysis` object. -/
structure Mission3 where
  objectives : M3Objectives
  pcap_analyzer_opened : Bool
deriving DecidableEq

/-- `Mission3PcapAnalysis.__init__`. -/
def m3Init : Mission3 :=
  { objectives :=
      { download_pcap_analyzer := false, open_pcap_analyzer := false,
        extract_mac_dest := false, extract_mac_src := false,
        extract_ip_src := false, extract_ip_dest := false,
        identify_protocol := false, complete_report := false },
    pcap_analyzer_opened := false }

/-- `Mission3PcapAnalysis.check_pcap_analyzer_downloaded`. -/
def m3CheckPcapAnalyzerDownloaded (tools : List String) (m : Mission3) :
    Bool × Mission3 :=
  if "pcap_analyzer" ∈ tools then
    (true, { m with objectives := { m.objectives with download_pcap_analyzer := true } })
  else (false, m)

/-- `Mission3PcapAnalysis.mark_pcap_analyzer_opened`. -/
def m3MarkPcapAnalyzerOpened (tools : List String) (m : Mission3) : Mission3 :=
  let r := m3CheckPcapAnalyzerDownloaded tools m
  if r.1 then
    { r.2 with pcap_analyzer_opened := true,
               objectives := { r.2.objectives with open_pcap_analyzer := true } }
  else r.2

/-- Objectives dictionary of Mission 3 as seen by
`is_mission_complete` / `get_completion_percentage` (dict order;
`required` is True for all eight objectives). -/
def m3ObjectiveList (m : Mission3) : List Objective :=
  [⟨true, m.objectives.download_pcap_analyzer⟩,
   ⟨true, m.objectives.open_pcap_analyzer⟩,
   ⟨true, m.objectives.extract_mac_dest⟩,
   ⟨true, m.objectives.extract_mac_src⟩,
   ⟨true, m.objectives.extract_ip_src⟩,
   ⟨true, m.objectives.extract_ip_dest⟩,
   ⟨true, m.objectives.identify_protocol⟩,
   ⟨true, m.objectives.complete_report⟩]

/-- `Mission3PcapAnalysis.is_mission_complete`. -/
def m3IsMissionComplete (m : Mission3) : Bool :=
  missionComplete (m3ObjectiveList m)

/-- `Mission3PcapAnalysis.get_completion_percentage`. -/
def m3GetCompletionPercentage (m : Mission3) : ℚ :=
  completionPercentage (m3ObjectiveList m)

/-! ## Randomness model

Python's global `random` module is modelled as a stream of natural
numbers together with a read position.  Each primitive call consumes
stream values; the reductions below fix how a raw value is turned into
the requested range.  Claims quantify over the stream, so the
distribution of the values is irrelevant. -/

structure Rng where
  stream : Nat → Nat
  pos : Nat

/-- Draw one raw value. -/
def Rng.next (g : Rng) : Nat × Rng :=
  (g.stream g.pos, ⟨g.stream, g.pos + 1⟩)

/-- `random.randint(a, b)`: inclusive on both ends. -/
def randint (a b : Nat) (g : Rng) : Nat × Rng :=
  let r := g.next
  (a + r.1 % (b - a + 1), r.2)

/-- `random.choice(l)` on a nonempty list of naturals. -/
def randChoice (l : List Nat) (g : Rng) : Nat × Rng :=
  let r := g.next
  (l.getD (r.1 % l.length) 0, r.2)

/-- `random.random() > 0.3`: one draw, turned into a Bool (the actual
threshold is irrelevant to the claims; only that a fresh draw decides). -/
def randFloatGt03 (g : Rng) : Bool × Rng :=
  let r := g.next
  (decide (3 < r.1 % 10), r.2)

/-- `random.sample(l, k)`: `k` distinct positions, drawn without
replacement. -/
def randSample (l : List Nat) : Nat → Rng → List Nat × Rng
  | 0, g => ([], g)
  | k + 1, g =>
      if l.isEmpty then ([], g)
      else
        let r := g.next
        let i := r.1 % l.length
        let rest := randSample (l.eraseIdx i) k r.2
        (l.getD i 0 :: rest.1, rest.2)

/-! ## `NetworkGenerator` (`src/src/systems/network_generator.py`) -/

/-- One entry of `NetworkGenerator.DEVICE_TEMPLATES`. -/
structure DeviceTemplate where
  name : String
  dtype : String
  possible_ports : List Nat
  risky_ports : List Nat
  trusted : Bool
deriving DecidableEq

def routerTemplate : DeviceTemplate :=
  ⟨"Router", "router", [22, 23, 80, 443, 8080], [23], true⟩

def playerPcTemplate : DeviceTemplate :=
  ⟨"PC-Principal", "computer", [22, 80, 443, 3389], [], true⟩

def phoneTemplate : DeviceTemplate :=
  ⟨"Smartphone", "mobile", [443, 8080], [], true⟩

def iotCameraTemplate : DeviceTemplate :=
  ⟨"Camera-IP", "iot", [23, 80, 554, 8080], [23], true⟩

def unknownDeviceTemplate : DeviceTemplate :=
  ⟨"Device-Inconnu", "unknown", [23, 445, 3389], [23, 445], false⟩

/-- The `Device` class (`to_dict` is a field-for-field copy, so the
object and its dictionary form are identified). -/
structure GDevice where
  name : String
  ip : String
  mac : String
  device_type : String
  open_ports : List Nat
  is_trusted : Bool
  isolated : Bool
deriving DecidableEq

/-- Upper-case hex digit of a value below 16. -/
def hexDigit (n : Nat) : Char :=
  if n < 10 then Char.ofNat (48 + n) else Char.ofNat (55 + n)

/-- `f"[v]:02X"` for a byte value. -/
def byteHex (v : Nat) : String :=
  ⟨[hexDigit (v / 16 % 16), hexDigit (v % 16)]⟩

/-- `NetworkGenerator.generate_mac`: six random bytes, upper-case hex,
joined with colons. -/
def generate_mac (g : Rng) : String × Rng :=
  let r1 := randint 0 255 g
  let r2 := randint 0 255 r1.2
  let r3 := randint 0 255 r2.2
  let r4 := randint 0 255 r3.2
  let r5 := randint 0 255 r4.2
  let r6 := randint 0 255 r5.2
  (String.intercalate ":"
    [byteHex r1.1, byteHex r2.1, byteHex r3.1, byteHex r4.1, byteHex r5.1, byteHex r6.1],
   r6.2)

/-- `NetworkGenerator.generate_ip` with `network_base = "192.168.1"`. -/
def generate_ip (host_id : Nat) : String :=
  "192.168.1." ++ toString host_id

/-- The port-selection part of `NetworkGenerator.create_device`:
sample 2-3 of the template's possible ports, then maybe add one risky
port (the `random.random() > 0.3` draw happens only when the template
has risky ports, matching Python's short-circuit `and`). -/
def create_device_ports (t : DeviceTemplate) (g : Rng) : List Nat × Rng :=
  let rNum := randint 2 3 g
  let rSel := randSample t.possible_ports
      (min rNum.1 t.possible_ports.length) rNum.2
  if t.risky_ports.isEmpty then rSel
  else
    let rGt := randFloatGt03 rSel.2
    if rGt.1 then
      let rRisky := randChoice t.risky_ports rGt.2
      ((if rRisky.1 ∈ rSel.1 then rSel.1 else rSel.1 ++ [rRisky.1]), rRisky.2)
    else (rSel.1, rGt.2)

/-- `NetworkGenerator.create_device`: selected ports are sorted with
Python's `sorted`; the MAC is drawn after the port draws, matching the
evaluation order of the `Device(...)` constructor call. -/
def create_device (t : DeviceTemplate) (host_id : Nat) (g : Rng) :
    GDevice × Rng :=
  let rPorts := create_device_ports t g
  let rMac := generate_mac rPorts.2
  ({ name := t.name,
     ip := generate_ip host_id,
     mac := rMac.1,
     device_type := t.dtype,
     open_ports := List.insertionSort (· ≤ ·) rPorts.1,
     is_trusted := t.trusted,
     isolated := false }, rMac.2)

/-- One entry of `vulnerabilities['risky_ports']`. -/
structure RiskyPortEntry where
  device : String
  ip : String
  port : Nat
  service : String
deriving DecidableEq

/-- One entry of `vulnerabilities['untrusted_devices']`. -/
structure UntrustedEntry where
  name : String
  ip : String
  mac : String
deriving DecidableEq

structure Vulnerabilities where
  risky_ports : List RiskyPortEntry
  untrusted_devices : List UntrustedEntry
deriving DecidableEq

/-- The dictionary returned by `generate_mission1_network`. -/
structure NetworkConfig where
  network_id : String
  subnet : String
  gateway : String
  devices : List GDevice
  vulnerabilities : Vulnerabilities
  security_status : String
deriving DecidableEq

/-- `NetworkGenerator.generate_mission1_network`: five fixed devices,
vulnerability lists computed from them in device order, and a random
`network_id`. -/
def generate_mission1_network (g : Rng) : NetworkConfig × Rng :=
  let r1 := create_device routerTemplate 1 g
  let r2 := create_device playerPcTemplate 10 r1.2
  let r3 := create_device phoneTemplate 20 r2.2
  let r4 := create_device iotCameraTemplate 30 r3.2
  let r5 := create_device unknownDeviceTemplate 50 r4.2
  let devices := [r1.1, r2.1, r3.1, r4.1, r5.1]
  let risky := (devices.filter (fun d => decide (23 ∈ d.open_ports))).map
      (fun d => RiskyPortEntry.mk d.name d.ip 23 "Telnet")
  let untrusted := (devices.filter (fun d => !d.is_trusted)).map
      (fun d => UntrustedEntry.mk d.name d.ip d.mac)
  let rId := randint 1000 9999 r5.2
  ({ network_id := "net_" ++ toString rId.1,
     subnet := "192.168.1.0/24",
     gateway := "192.168.1.1",
     devices := devices,
     vulnerabilities := ⟨risky, untrusted⟩,
     security_status := "vulnerable" }, rId.2)

/-! ## `NetworkSimulator` (`src/src/core/network_simulation.py`) -/

structure SimPlayer where
  hostname : String
  ip_address : String
  mac_address : String
  subnet_mask : String
  default_gateway : String
  dns_servers : List String
  dhcp_enabled : Bool
  connection_type : String
  adapter_name : String
deriving DecidableEq

structure SimRouter where
  hostname : String
  ip_address : String
  mac_address : String
  model : String
  firmware : String
deriving DecidableEq

structure SimDevice where
  hostname : String
  ip_address : String
  mac_address : String
  device_type : String
  manufacturer : String
deriving DecidableEq

structure SimNetworkInfo where
  network_address : String
  broadcast_address : String
  subnet_mask : String
  cidr : String
  total_devices : Nat
  dhcp_range : String
deriving DecidableEq

/-- `self.network_data` of `NetworkSimulator`. -/
structure SimNetworkData where
  player : SimPlayer
  router : SimRouter
  devices : List SimDevice
  network : SimNetworkInfo
deriving DecidableEq

/-- `NetworkSimulator._generate_fixed_devices`: four fixed devices. -/
def simFixedDevices : List SimDevice :=
  [⟨"LAPTOP-MARIE", "192.168.1.75", "A4:5E:60:C2:D1:8F", "computer", "Dell"⟩,
   ⟨"iPhone-Papa", "192.168.1.155", "34:36:3B:A7:B2:C9", "phone", "Apple"⟩,
   ⟨"Smart-TV", "192.168.1.185", "D0:17:C2:5F:8A:3B", "iot", "Samsung"⟩,
   ⟨"Imprimante-HP", "192.168.1.220", "B8:27:EB:4D:2E:7C", "iot", "HP"⟩]

/-- `NetworkSimulator.generate_network`: all values are fixed except the
player hostname, which embeds the nickname.  The class imports `random`
(for `_generate_mac`), so the rng state is threaded here; this method
makes no draw and returns it unchanged. -/
def simGenerateNetwork (nickname : String) (g : Rng) : SimNetworkData × Rng :=
  ({ player :=
      { hostname := nickname ++ "-PC",
        ip_address := "192.168.1.120",
        mac_address := "00:15:00-2B-3A-D4",
        subnet_mask := "255.255.255.0",
        default_gateway := "192.168.1.1",
        dns_servers := ["8.8.8.8", "8.8.4.4"],
        dhcp_enabled := true,
        connection_type := "Ethernet",
        adapter_name := "Ethernet0" },
     router :=
      { hostname := "home",
        ip_address := "192.168.1.1",
        mac_address := "00:17:9A:2B:3C:4D",
        model := "D-Link DIR-825",
        firmware := "v2.3.24" },
     devices := simFixedDevices,
     network :=
      { network_address := "192.168.1.0",
        broadcast_address := "192.168.1.255",
        subnet_mask := "255.255.255.0",
        cidr := "192.168.1.0/24",
        total_devices := simFixedDevices.length + 2,
        dhcp_range := "192.168.1.100 - 192.168.1.200" } }, g)

/-! `NetworkSimulator.validate_mission1_data`, one branch per submitted
field (a field absent from `submitted_data` produces no entry in the
result, so each branch is an independent function of the submitted
string). -/

/-- The `"ip_address"` branch. -/
def simValidateIpAddress (nd : SimNetworkData) (s : String) : Bool :=
  pyStrip s = nd.player.ip_address

/-- The `"mac_address"` branch: the submission is stripped, upper-cased
and dash-normalised; the stored MAC is only upper-cased. -/
def simValidateMacAddress (nd : SimNetworkData) (s : String) : Bool :=
  dashToColon (pyUpper (pyStrip s)) = pyUpper nd.player.mac_address

/-- The `"gateway"` branch. -/
def simValidateGateway (nd : SimNetworkData) (s : String) : Bool :=
  pyStrip s = nd.router.ip_address

/-- The `"subnet_mask"` branch. -/
def simValidateSubnetMask (nd : SimNetworkData) (s : String) : Bool :=
  pyStrip s = nd.player.subnet_mask

/-- The `"device_count"` branch: `int(...)` then a numeric comparison;
a `ValueError` yields False. -/
def simValidateDeviceCount (nd : SimNetworkData) (s : String) : Bool :=
  match pyInt s with
  | some n => decide (n = (nd.network.total_devices : Int))
  | none => false

/-- The `"router_name"` branch: both sides stripped (submission only)
and upper-cased. -/
def simValidateRouterName (nd : SimNetworkData) (s : String) : Bool :=
  pyUpper (pyStrip s) = pyUpper nd.router.hostname

/-! ## Mission 1 (`Mission1NetworkRecon`) -/

/-- Completion flags and mutable counters of the Mission 1 objectives
dictionary (dict order; every objective has `required` True; immutable
title/description strings omitted). -/
structure M1Objectives where
  scan_network : Bool
  identify_devices : Bool
  identify_progress : Nat
  identify_target : Nat
  find_risky_ports : Bool
  found_ports : List Nat
  analyze_packets : Bool
  questions_answered : Nat
  isolate_threats : Bool
  isolated_count : Nat
  isolate_target_count : Nat
  block_risky_ports : Bool
  blocked_ports_rec : List Nat
  final_audit : Bool
deriving DecidableEq

/-- Mutable state of a `Mission1NetworkRecon` object.  `config` is the
network generated at construction time (kept abstract: the claims hold
for every configuration). -/
structure Mission1 where
  config : NetworkConfig
  objectives : M1Objectives
  commands_used : List String
  devices_discovered : List String
deriving DecidableEq

/-- `Mission1NetworkRecon.__init__` for a given generated network. -/
def m1Init (cfg : NetworkConfig) : Mission1 :=
  { config := cfg,
    objectives :=
      { scan_network := false,
        identify_devices := false, identify_progress := 0, identify_target := 5,
        find_risky_ports := false, found_ports := [],
        analyze_packets := false, questions_answered := 0,
        isolate_threats := false, isolated_count := 0,
        isolate_target_count := cfg.vulnerabilities.untrusted_devices.length,
        block_risky_ports := false, blocked_ports_rec := [],
        final_audit := false },
    commands_used := [],
    devices_discovered := [] }

/-- `check_scan_network_complete` (its `terminal_state` argument is
unused by the source). -/
def m1CheckScanNetworkComplete (m : Mission1) : Bool × Mission1 :=
  if "scan network" ∈ m.commands_used then
    (true, { m with objectives := { m.objectives with scan_network := true } })
  else (false, m)

/-- `check_identify_devices_complete`: records progress, completes at
the target count. -/
def m1CheckIdentifyDevicesComplete (m : Mission1) : Bool × Mission1 :=
  let discovered := m.devices_discovered.length
  let m2 := { m with objectives := { m.objectives with identify_progress := discovered } }
  if m2.objectives.identify_target ≤ discovered then
    (true, { m2 with objectives := { m2.objectives with identify_devices := true } })
  else (false, m2)

/-- `check_find_risky_ports_complete`: completes when some risky-port
vulnerability has port 23 and 23 has been recorded in `found_ports`. -/
def m1CheckFindRiskyPortsComplete (m : Mission1) : Bool × Mission1 :=
  if m.config.vulnerabilities.risky_ports.any (fun v => v.port == 23)
      && (23 ∈ m.objectives.found_ports) then
    (true, { m with objectives := { m.objectives with find_risky_ports := true } })
  else (false, m)

/-- `check_isolate_threats_complete`. -/
def m1CheckIsolateThreatsComplete (isolated_devices : List String) (m : Mission1) :
    Bool × Mission1 :=
  let cnt := (m.config.vulnerabilities.untrusted_devices.filter
      (fun d => decide (d.mac ∈ isolated_devices))).length
  let m2 := { m with objectives := { m.objectives with isolated_count := cnt } }
  if m2.objectives.isolate_target_count ≤ cnt then
    (true, { m2 with objectives := { m2.objectives with isolate_threats := true } })
  else (false, m2)

/-- `check_block_risky_ports_complete`. -/
def m1CheckBlockRiskyPortsComplete (blocked_ports : List Nat) (m : Mission1) :
    Bool × Mission1 :=
  if 23 ∈ blocked_ports then
    (true, { m with objectives :=
        { m.objectives with block_risky_ports := true, blocked_ports_rec := blocked_ports } })
  else (false, m)

/-- `check_final_audit_complete`: completes exactly when every untrusted
device MAC is isolated and every risky port is blocked; otherwise the
state is untouched. -/
def m1CheckFinalAuditComplete (isolated_devices : List String)
    (blocked_ports : List Nat) (m : Mission1) : Bool × Mission1 :=
  let untrusted_isolated := m.config.vulnerabilities.untrusted_devices.all
      (fun d => decide (d.mac ∈ isolated_devices))
  let risky_blocked := m.config.vulnerabilities.risky_ports.all
      (fun v => decide (v.port ∈ blocked_ports))
  if untrusted_isolated && risky_blocked then
    (true, { m with objectives := { m.objectives with final_audit := true } })
  else (false, m)

/-- The dictionary passed by the Terminal app to `update_progress`. -/
structure TerminalState where
  commands_history : List String
  blocked_ports : List Nat
  isolated_devices : List String
  network_scanned : Bool
  devices_discovered : List String

/-- `Mission1NetworkRecon.update_progress`: refreshes the tracked data
and runs five of the seven objective checks (neither
`check_find_risky_ports_complete` nor any check for `analyze_packets`
is invoked). -/
def m1UpdateProgress (ts : TerminalState) (m : Mission1) : Mission1 :=
  let m0 := { m with commands_used := ts.commands_history,
                     devices_discovered := ts.devices_discovered }
  let m1 := (m1CheckScanNetworkComplete m0).2
  let m2 := (m1CheckIdentifyDevicesComplete m1).2
  let m3 := (m1CheckIsolateThreatsComplete ts.isolated_devices m2).2
  let m4 := (m1CheckBlockRiskyPortsComplete ts.blocked_ports m3).2
  (m1CheckFinalAuditComplete ts.isolated_devices ts.blocked_ports m4).2

/-- Objectives dictionary of Mission 1 as seen by
`is_mission_complete` / `get_completion_percentage` (dict order;
`required` is True for all seven objectives). -/
def m1ObjectiveList (m : Mission1) : List Objective :=
  [⟨true, m.objectives.scan_network⟩,
   ⟨true, m.objectives.identify_devices⟩,
   ⟨true, m.objectives.find_risky_ports⟩,
   ⟨true, m.objectives.analyze_packets⟩,
   ⟨true, m.objectives.isolate_threats⟩,
   ⟨true, m.objectives.block_risky_ports⟩,
   ⟨true, m.objectives.final_audit⟩]

/-- `Mission1NetworkRecon.is_mission_complete`. -/
def m1IsMissionComplete (m : Mission1) : Bool :=
  missionComplete (m1ObjectiveList m)

/-- `Mission1NetworkRecon.get_completion_percentage`. -/
def m1GetCompletionPercentage (m : Mission1) : ℚ :=
  completionPercentage (m1ObjectiveList m)

/-! ## `SaveLoadManager` (`src/src/core/save_load.py`) -/

/-- The default `progress` record installed by `save_profile`. -/
structure ProgressData where
  current_stage : String
  stages_completed : List String
  missions_completed : List String
  current_mission : Option String
deriving DecidableEq

def defaultProgress : ProgressData :=
  ⟨"profile_created", ["profile_creation"], [], none⟩

/-- The profile dictionary fields touched by `SaveLoadManager`
(`nickname` is always present when `save_profile` is called; the other
keys may be absent). -/
structure Profile where
  nickname : String
  saved_at : Option String
  created_at : Option String
  progress : Option ProgressData
deriving DecidableEq

/-- Python `str.isalnum()` on ASCII characters. -/
def pyIsAlnum (c : Char) : Bool := c.isAlpha || c.isDigit

/-- The nickname-cleaning step of `_get_profile_filename`: keep only
alphanumerics, underscore and dash, then lower-case. -/
def cleanNickname (n : String) : String :=
  pyLower ⟨n.data.filter (fun c => pyIsAlnum c || c = '_' || c = '-')⟩

/-- `SaveLoadManager._get_profile_filename` relative to the profiles
directory `dir`. -/
def profileFilename (dir n : String) : String :=
  dir ++ "/" ++ cleanNickname n ++ "_profile.json"

/-- The file system as seen by `SaveLoadManager`: stored profile files
(path, parsed JSON content) plus per-path oracles for the fallible
operations.  `readOk` false covers both an unreadable and an
unparseable file; `json.dump`/`json.load` round-tripping is the JSON
library's behaviour and is modelled as storing the record itself. -/
structure FileSys where
  files : List (String × Profile)
  writeOk : String → Bool
  readOk : String → Bool
  removeOk : String → Bool

/-- Lookup of a stored file by path. -/
def getFile (files : List (String × Profile)) (path : String) : Option Profile :=
  (files.find? (fun kv => kv.1 == path)).map (fun kv => kv.2)

/-- Writing a file: replace the content at `path`, or append it. -/
def setFile : List (String × Profile) → String → Profile → List (String × Profile)
  | [], path, p => [(path, p)]
  | (k, v) :: rest, path, p =>
      if k = path then (path, p) :: rest else (k, v) :: setFile rest path p

/-- `os.remove`. -/
def removeFile (files : List (String × Profile)) (path : String) :
    List (String × Profile) :=
  files.filter (fun kv => !(kv.1 == path))

/-- The in-place mutation `save_profile` performs on the profile dict
before writing: stamp `saved_at`, default `created_at` and `progress`. -/
def saveAugment (now : String) (p : Profile) : Profile :=
  { p with
    saved_at := some now,
    created_at := match p.created_at with | some c => some c | none => some now,
    progress := match p.progress with | some pr => some pr | none => some defaultProgress }

/-- `SaveLoadManager.save_profile`: any exception (modelled by the
`writeOk` oracle) is caught and reported as `(False, message)`. -/
def save_profile (dir now : String) (fs : FileSys) (p : Profile) :
    FileSys × Bool × String :=
  let p2 := saveAugment now p
  let fname := profileFilename dir p2.nickname
  if fs.writeOk fname then
    ({ fs with files := setFile fs.files fname p2 }, true,
     "Profil sauvegarde avec succes.")
  else (fs, false, "Erreur lors de la sauvegarde.")

/-- `SaveLoadManager.load_profile`: `None` when the file does not exist
or cannot be read or parsed. -/
def load_profile (dir : String) (fs : FileSys) (nickname : String) :
    Option Profile :=
  let fname := profileFilename dir nickname
  match getFile fs.files fname with
  | none => none
  | some p => if fs.readOk fname then some p else none

/-- `SaveLoadManager.delete_profile`. -/
def delete_profile (dir : String) (fs : FileSys) (nickname : String) :
    FileSys × Bool × String :=
  let fname := profileFilename dir nickname
  match getFile fs.files fname with
  | none => (fs, false, "Le profil n existe pas.")
  | some _ =>
      if fs.removeOk fname then
        ({ fs with files := removeFile fs.files fname }, true,
         "Profil supprime avec succes.")
      else (fs, false, "Erreur lors de la suppression.")

/-- The summary record built by `list_profiles` for each readable
profile file. -/
structure ProfileInfo where
  nickname : String
  saved_at : String
  filename : String
deriving DecidableEq

/-- `SaveLoadManager.list_profiles`: every `*_profile.json` file that
can be read and parsed contributes one entry; unreadable files are
skipped with a warning; the result is sorted by `saved_at`, most recent
first (string comparison, as in Python). -/
def list_profiles (fs : FileSys) : List ProfileInfo :=
  let entries := fs.files.filterMap (fun kv =>
    if kv.1.endsWith "_profile.json" && fs.readOk kv.1 then
      some (ProfileInfo.mk kv.2.nickname ((kv.2.saved_at).getD "Unknown") kv.1)
    else none)
  List.insertionSort (fun a b : ProfileInfo => b.saved_at ≤ a.saved_at) entries

/-! ## `SettingsManager` (`src/src/core/settings_manager.py`) -/

/-- A JSON settings value (the defaults use integers, strings and
booleans). -/
inductive SVal
  | i (n : Int)
  | s (v : String)
  | b (v : Bool)
deriving DecidableEq

/-- `default_settings` of `SettingsManager.load_settings`, in source
order. -/
def defaultSettings : List (String × SVal) :=
  [("master_volume", .i 70), ("sound_effects", .i 85), ("music_volume", .i 60),
   ("luminosity", .i 80), ("text_size", .s "medium"),
   ("hints", .b true), ("difficulty", .s "normal"), ("text_speed", .s "normal"),
   ("auto_scroll", .b true), ("show_command_hints", .b true),
   ("educational_mode", .b true)]

/-- State of one settings file: missing, present but not valid JSON, or
parsed into key-value pairs. -/
inductive FileState
  | absent
  | unparseable
  | parsed (entries : List (String × SVal))
deriving DecidableEq

/-- Dictionary lookup in a settings record. -/
def lookupKey (l : List (String × SVal)) (k : String) : Option SVal :=
  (l.find? (fun kv => kv.1 == k)).map (fun kv => kv.2)

/-- The merge loop: `for key in default_settings: if key not in loaded:
loaded[key] = default_settings[key]`. -/
def mergeWithDefaults (loaded : List (String × SVal)) : List (String × SVal) :=
  loaded ++ defaultSettings.filter (fun kv => (lookupKey loaded kv.1).isNone)

/-- `SettingsManager.load_settings` as a function of the state of the
persistent settings file and of the bundled `settings.json` fallback:
a parsed persistent file is merged with the defaults; an unparseable
persistent file falls through to the defaults without consulting the
fallback; an absent persistent file defers to the bundled file, merged
when parseable; otherwise the defaults are returned. -/
def load_settings (persistentFile bundledFile : FileState) :
    List (String × SVal) :=
  match persistentFile with
  | .parsed d => mergeWithDefaults d
  | .unparseable => defaultSettings
  | .absent =>
      match bundledFile with
      | .parsed d => mergeWithDefaults d
      | _ => defaultSettings

/-! ## Method enumerations for the mutation claims

One constructor per state-mutating method of each mission class, with
the data each method reads from the outside as arguments (the
source methods also read the shared `profile_data` dict, modelled by
the `tools` argument).  Pure methods (briefings, hints, getters,
`validate_answer`) do not touch the objectives and are omitted. -/

inductive M1Method
  | checkScan
  | checkIdentify
  | checkFindRisky
  | checkIsolate (isolated : List String)
  | checkBlock (blocked : List Nat)
  | checkFinalAudit (isolated : List String) (blocked : List Nat)
  | update (ts : TerminalState)

/-- Run one `Mission1NetworkRecon` method for its state effect. -/
def m1Apply : M1Method → Mission1 → Mission1
  | .checkScan, m => (m1CheckScanNetworkComplete m).2
  | .checkIdentify, m => (m1CheckIdentifyDevicesComplete m).2
  | .checkFindRisky, m => (m1CheckFindRiskyPortsComplete m).2
  | .checkIsolate iso, m => (m1CheckIsolateThreatsComplete iso m).2
  | .checkBlock blk, m => (m1CheckBlockRiskyPortsComplete blk m).2
  | .checkFinalAudit iso blk, m => (m1CheckFinalAuditComplete iso blk m).2
  | .update ts, m => m1UpdateProgress ts m

inductive M1Key
  | scan | identify | findRisky | analyze | isolate | block | finalAudit

/-- The `completed` flag of one Mission 1 objective. -/
def m1Completed (m : Mission1) : M1Key → Bool
  | .scan => m.objectives.scan_network
  | .identify => m.objectives.identify_devices
  | .findRisky => m.objectives.find_risky_ports
  | .analyze => m.objectives.analyze_packets
  | .isolate => m.objectives.isolate_threats
  | .block => m.objectives.block_risky_ports
  | .finalAudit => m.objectives.final_audit

inductive M2Method
  | checkDownloaded (tools : List String)
  | markOpened (tools : List String)
  | submitIp (ip : String)
  | reportThreat (t : String)
  | checkReport
  | update (tools : List String)

/-- Run one `Mission2PacketAnalysis` method for its state effect. -/
def m2Apply : M2Method → Mission2 → Mission2
  | .checkDownloaded tools, m => (m2CheckWiresharkDownloaded tools m).2
  | .markOpened tools, m => m2MarkWiresharkOpened tools m
  | .submitIp ip, m => (m2SubmitSuspiciousIp ip m).2
  | .reportThreat t, m => (m2ReportThreatFound t m).2
  | .checkReport, m => (m2CheckReportComplete m).2
  | .update tools, m => m2UpdateProgress tools m

inductive M2Key
  | download | openW | findIp | threats | report

/-- The `completed` flag of one Mission 2 objective. -/
def m2Completed (m : Mission2) : M2Key → Bool
  | .download => m.objectives.download_wireshark
  | .openW => m.objectives.open_wireshark
  | .findIp => m.objectives.find_suspicious_ip
  | .threats => m.objectives.identify_threats
  | .report => m.objectives.complete_report

inductive M3Method
  | checkDownloaded (tools : List String)
  | markOpened (tools : List String)

/-- Run one `Mission3PcapAnalysis` method for its state effect. -/
def m3Apply : M3Method → Mission3 → Mission3
  | .checkDownloaded tools, m => (m3CheckPcapAnalyzerDownloaded tools m).2
  | .markOpened tools, m => m3MarkPcapAnalyzerOpened tools m

inductive M3Key
  | download | openA | macDest | macSrc | ipSrc | ipDest | protocol | report

/-- The `completed` flag of one Mission 3 objective. -/
def m3Completed (m : Mission3) : M3Key → Bool
  | .download => m.objectives.download_pcap_analyzer
  | .openA => m.objectives.open_pcap_analyzer
  | .macDest => m.objectives.extract_mac_dest
  | .macSrc => m.objectives.extract_mac_src
  | .ipSrc => m.objectives.extract_ip_src
  | .ipDest => m.objectives.extract_ip_dest
  | .protocol => m.objectives.identify_protocol
  | .report => m.objectives.complete_report

/-! ## Helper lemmas -/

lemma create_device_name (t : DeviceTemplate) (h : Nat) (g : Rng) :
    (create_device t h g).1.name = t.name := by
  simp [create_device]

lemma create_device_ip (t : DeviceTemplate) (h : Nat) (g : Rng) :
    (create_device t h g).1.ip = generate_ip h := by
  simp [create_device]

lemma create_device_trusted (t : DeviceTemplate) (h : Nat) (g : Rng) :
    (create_device t h g).1.is_trusted = t.trusted := by
  simp [create_device]

lemma create_device_ports_sorted (t : DeviceTemplate) (h : Nat) (g : Rng) :
    List.Sorted (· ≤ ·) (create_device t h g).1.open_ports := by
  have hs : (create_device t h g).1.open_ports =
      List.insertionSort (· ≤ ·) (create_device_ports t g).1 := by
    simp [create_device]
  rw [hs]
  exact List.sorted_insertionSort _ _

/-! ## Claim theorems -/

/-- C2 counterexample: the claim asserts that two runs of
`NetworkGenerator.generate_mission1_network` from the same inputs with
no seed given return equal network configurations.  On the unseeded
singleton generator the second call continues from the random state the
first call left behind; on the concrete random stream `fun n => n` the
two calls disagree already on `network_id` (and hence on the whole
configuration). -/
theorem generate_mission1_network_two_runs_differ :
    ((generate_mission1_network ⟨fun n => n, 0⟩).1.network_id ≠
      (generate_mission1_network (generate_mission1_network ⟨fun n => n, 0⟩).2).1.network_id) ∧
    ((generate_mission1_network ⟨fun n => n, 0⟩).1 ≠
      (generate_mission1_network (generate_mission1_network ⟨fun n => n, 0⟩).2).1) := by
  constructor <;> decide

/-- C2 (amended): `NetworkSimulator.generate_network` is deterministic —
its result does not depend on the random state at all, only on the
player nickname (`NetworkGenerator.generate_mission1_network` is not:
see the counterexample). -/
theorem simulator_generate_network_deterministic
    (nickname : String) (g1 g2 : Rng) :
    (simGenerateNetwork nickname g1).1 = (simGenerateNetwork nickname g2).1 := rfl

/-- C3: `check_final_audit_complete` returns True and completes the
`final_audit` objective exactly when every untrusted device MAC is in
the isolated list and every risky port is in the blocked list; in every
other case it returns False and leaves the mission state unchanged. -/
theorem final_audit_iff_all_isolated_and_blocked
    (m : Mission1) (isolated : List String) (blocked : List Nat) :
    ((m1CheckFinalAuditComplete isolated blocked m).1 = true ↔
      ((∀ d ∈ m.config.vulnerabilities.untrusted_devices, d.mac ∈ isolated) ∧
       (∀ v ∈ m.config.vulnerabilities.risky_ports, v.port ∈ blocked))) ∧
    ((m1CheckFinalAuditComplete isolated blocked m).2 =
      (if (m1CheckFinalAuditComplete isolated blocked m).1 then
        { m with objectives := { m.objectives with final_audit := true } }
       else m)) := by
  have hfst : (m1CheckFinalAuditComplete isolated blocked m).1 =
      (m.config.vulnerabilities.untrusted_devices.all
          (fun d => decide (d.mac ∈ isolated)) &&
       m.config.vulnerabilities.risky_ports.all
          (fun v => decide (v.port ∈ blocked))) := by
    cases hc : (m.config.vulnerabilities.untrusted_devices.all
          (fun d => decide (d.mac ∈ isolated)) &&
        m.config.vulnerabilities.risky_ports.all
          (fun v => decide (v.port ∈ blocked))) <;>
      simp [m1CheckFinalAuditComplete, hc]
  have hsnd : (m1CheckFinalAuditComplete isolated blocked m).2 =
      (if (m.config.vulnerabilities.untrusted_devices.all
            (fun d => decide (d.mac ∈ isolated)) &&
          m.config.vulnerabilities.risky_ports.all
            (fun v => decide (v.port ∈ blocked))) = true then
        { m with objectives := { m.objectives with final_audit := true } }
       else m) := by
    cases hc : (m.config.vulnerabilities.untrusted_devices.all
          (fun d => decide (d.mac ∈ isolated)) &&
        m.config.vulnerabilities.risky_ports.all
          (fun v => decide (v.port ∈ blocked))) <;>
      simp [m1CheckFinalAuditComplete, hc]
  refine ⟨?_, ?_⟩
  · rw [hfst]
    simp [Bool.and_eq_true, List.all_eq_true]
  · rw [hsnd, hfst]

/-- C3 witness: at a concrete mission state with one untrusted device
and one risky port, isolating that MAC and blocking that port flips the
final-audit objective. -/
theorem final_audit_iff_witness :
    ((m1CheckFinalAuditComplete ["AA:BB"] [23]
        (m1Init
          { network_id := "net_1", subnet := "192.168.1.0/24",
            gateway := "192.168.1.1", devices := [],
            vulnerabilities :=
              ⟨[⟨"Router", "192.168.1.1", 23, "Telnet"⟩],
               [⟨"Device-Inconnu", "192.168.1.50", "AA:BB"⟩]⟩,
            security_status := "vulnerable" })).1 = true) := by
  have h := final_audit_iff_all_isolated_and_blocked
    (m1Init
      { network_id := "net_1", subnet := "192.168.1.0/24",
        gateway := "192.168.1.1", devices := [],
        vulnerabilities :=
          ⟨[⟨"Router", "192.168.1.1", 23, "Telnet"⟩],
           [⟨"Device-Inconnu", "192.168.1.50", "AA:BB"⟩]⟩,
        security_status := "vulnerable" })
    ["AA:BB"] [23]
  exact h.1.mpr (by constructor <;> decide)

/-- C5: for every random state, `generate_mission1_network` returns the
five fixed devices at their fixed addresses, with the fixed gateway and
subnet, Device-Inconnu as the single untrusted device, and every
device's open-port list sorted in increasing order. -/
theorem generator_network_shape (g : Rng) :
    ((generate_mission1_network g).1.devices.length = 5) ∧
    ((generate_mission1_network g).1.devices.map (fun d => (d.name, d.ip)) =
      [("Router", "192.168.1.1"), ("PC-Principal", "192.168.1.10"),
       ("Smartphone", "192.168.1.20"), ("Camera-IP", "192.168.1.30"),
       ("Device-Inconnu", "192.168.1.50")]) ∧
    ((generate_mission1_network g).1.devices.map (fun d => d.is_trusted) =
      [true, true, true, true, false]) ∧
    ((generate_mission1_network g).1.gateway = "192.168.1.1") ∧
    ((generate_mission1_network g).1.subnet = "192.168.1.0/24") ∧
    ((generate_mission1_network g).1.vulnerabilities.untrusted_devices.map
        (fun u => (u.name, u.ip)) = [("Device-Inconnu", "192.168.1.50")]) ∧
    (∀ d ∈ (generate_mission1_network g).1.devices,
      List.Sorted (· ≤ ·) d.open_ports) := by
  refine ⟨?_, ?_, ?_, ?_, ?_, ?_, ?_⟩
  · simp [generate_mission1_network]
  · simp only [generate_mission1_network, List.map, create_device_name,
      create_device_ip, routerTemplate, playerPcTemplate, phoneTemplate,
      iotCameraTemplate, unknownDeviceTemplate, generate_ip]
    decide
  · simp [generate_mission1_network, create_device_trusted,
      routerTemplate, playerPcTemplate, phoneTemplate, iotCameraTemplate,
      unknownDeviceTemplate]
  · simp [generate_mission1_network]
  · simp [generate_mission1_network]
  · simp [generate_mission1_network, create_device_trusted, create_device_name,
      create_device_ip, routerTemplate, playerPcTemplate, phoneTemplate,
      iotCameraTemplate, unknownDeviceTemplate, generate_ip, List.filter]
    decide
  · intro d hd
    simp [generate_mission1_network] at hd
    rcases hd with h | h | h | h | h <;> rw [h] <;>
      exact create_device_ports_sorted _ _ _

/-- C5 witness: the sortedness clause applied to the router device of
the network generated from the concrete stream `fun n => n`. -/
theorem generator_network_shape_witness :
    List.Sorted (· ≤ ·)
      (create_device routerTemplate 1 ⟨fun n => n, 0⟩).1.open_ports :=
  (generator_network_shape ⟨fun n => n, 0⟩).2.2.2.2.2.2
    (create_device routerTemplate 1 ⟨fun n => n, 0⟩).1 (by decide)

lemma m1UpdateProgress_preserves_flags (ts : TerminalState) (m : Mission1) :
    (m1UpdateProgress ts m).objectives.find_risky_ports =
      m.objectives.find_risky_ports ∧
    (m1UpdateProgress ts m).objectives.analyze_packets =
      m.objectives.analyze_packets := by
  simp only [m1UpdateProgress, m1CheckScanNetworkComplete,
    m1CheckIdentifyDevicesComplete, m1CheckIsolateThreatsComplete,
    m1CheckBlockRiskyPortsComplete, m1CheckFinalAuditComplete]
  split_ifs <;> simp

/-- C4: starting from a freshly constructed `Mission1NetworkRecon`, no
sequence of `update_progress` calls (with arbitrary terminal states)
ever completes `find_risky_ports` or `analyze_packets` — those checks
are never invoked by `update_progress` — so `is_mission_complete`
stays False. -/
theorem update_progress_never_completes_mission
    (cfg : NetworkConfig) (tss : List TerminalState) :
    ((tss.foldl (fun m ts => m1UpdateProgress ts m)
        (m1Init cfg)).objectives.find_risky_ports = false) ∧
    ((tss.foldl (fun m ts => m1UpdateProgress ts m)
        (m1Init cfg)).objectives.analyze_packets = false) ∧
    (m1IsMissionComplete
      (tss.foldl (fun m ts => m1UpdateProgress ts m) (m1Init cfg)) = false) := by
  have key : ∀ (l : List TerminalState) (m : Mission1),
      ((l.foldl (fun m ts => m1UpdateProgress ts m) m).objectives.find_risky_ports =
        m.objectives.find_risky_ports) ∧
      ((l.foldl (fun m ts => m1UpdateProgress ts m) m).objectives.analyze_packets =
        m.objectives.analyze_packets) := by
    intro l
    induction l with
    | nil => intro m; exact ⟨rfl, rfl⟩
    | cons ts rest ih =>
        intro m
        rw [List.foldl_cons]
        have h := m1UpdateProgress_preserves_flags ts m
        have h2 := ih (m1UpdateProgress ts m)
        exact ⟨h2.1.trans h.1, h2.2.trans h.2⟩
  have hflags := key tss (m1Init cfg)
  have hfr : (tss.foldl (fun m ts => m1UpdateProgress ts m)
      (m1Init cfg)).objectives.find_risky_ports = false := hflags.1
  have hap : (tss.foldl (fun m ts => m1UpdateProgress ts m)
      (m1Init cfg)).objectives.analyze_packets = false := hflags.2
  refine ⟨hfr, hap, ?_⟩
  simp [m1IsMissionComplete, missionComplete, m1ObjectiveList, hfr]

lemma dashToColon_no_dash (s : String) : '-' ∉ (dashToColon s).data := by
  unfold dashToColon
  intro hmem
  simp only [List.mem_map] at hmem
  obtain ⟨c, _, hc⟩ := hmem
  by_cases h : c = '-' <;> simp [h] at hc

/-- C1 counterexample: `Mission2PacketAnalysis.report_threat_found` is
case-sensitive: it accepts `"telnet_scan"` but rejects
`"TELNET_SCAN"`, although the two agree after trimming and
case-folding — so changing only the case of an accepted submission does
change the result, contradicting the claim. -/
theorem report_threat_case_change_counterexample :
    ((m2ReportThreatFound "telnet_scan" m2Init).1 = true) ∧
    ((m2ReportThreatFound "TELNET_SCAN" m2Init).1 = false) ∧
    (pyLower (pyStrip "TELNET_SCAN") = pyLower (pyStrip "telnet_scan")) := by
  refine ⟨?_, ?_, ?_⟩ <;> decide

/-- C1 (amended): `Mission3PcapAnalysis.validate_answer` accepts a
submission iff, after trimming and case-folding (and dash-to-colon
normalisation on the MAC fields), it equals the looked-up expected
answer; `Mission2PacketAnalysis.report_threat_found` accepts exactly
the literal threat-type keys (case-sensitive, untrimmed); the
`NetworkSimulator.validate_mission1_data` branches compare the trimmed
submission exactly for ip/gateway/subnet-mask, case-insensitively for
the router name, numerically (Python `int`) for the device count — and
its MAC branch accepts nothing, because the stored MAC keeps its dashes
while the submission has dashes replaced by colons. -/
theorem mission_validation_characterisation (value : String) :
    (∀ field_key, m3ValidateAnswer field_key value = true ↔
      ∃ ans, lookupPair m3CorrectAnswers field_key = some ans ∧
        m3Normalize field_key (pyLower (pyStrip value)) =
          m3Normalize field_key (pyLower (pyStrip ans))) ∧
    (∀ m : Mission2,
      (m2ReportThreatFound value m).1 = true ↔ value ∈ threatTypeKeys) ∧
    (∀ (nickname : String) (g : Rng),
      (simValidateIpAddress (simGenerateNetwork nickname g).1 value = true ↔
        pyStrip value = "192.168.1.120") ∧
      (simValidateMacAddress (simGenerateNetwork nickname g).1 value = false) ∧
      (simValidateGateway (simGenerateNetwork nickname g).1 value = true ↔
        pyStrip value = "192.168.1.1") ∧
      (simValidateSubnetMask (simGenerateNetwork nickname g).1 value = true ↔
        pyStrip value = "255.255.255.0") ∧
      (simValidateRouterName (simGenerateNetwork nickname g).1 value = true ↔
        pyUpper (pyStrip value) = "HOME") ∧
      (simValidateDeviceCount (simGenerateNetwork nickname g).1 value = true ↔
        pyInt value = some 6)) := by
  refine ⟨?_, ?_, ?_⟩
  · intro field_key
    unfold m3ValidateAnswer
    cases hl : lookupPair m3CorrectAnswers field_key with
    | none => simp [hl]
    | some ans =>
        simp only [hl, Option.some.injEq]
        constructor
        · intro hv
          refine ⟨ans, rfl, ?_⟩
          by_cases hm : field_key = "dest_mac" || field_key = "src_mac"
          · simp only [hm, if_true] at hv
            simpa [m3Normalize, hm] using of_decide_eq_true hv
          · simp only [hm] at hv
            simpa [m3Normalize, hm] using of_decide_eq_true hv
        · rintro ⟨a, ha, hn⟩
          cases ha
          by_cases hm : field_key = "dest_mac" || field_key = "src_mac"
          · simp only [hm, if_true]
            simp [m3Normalize, hm] at hn
            exact decide_eq_true hn
          · simp only [hm]
            simp [m3Normalize, hm] at hn
            exact decide_eq_true hn
  · intro m
    unfold m2ReportThreatFound
    by_cases h : value ∈ threatTypeKeys <;> simp [h]
  · intro nickname g
    refine ⟨?_, ?_, ?_, ?_, ?_, ?_⟩
    · simp [simValidateIpAddress, simGenerateNetwork]
    · have hne : dashToColon (pyUpper (pyStrip value)) ≠
          pyUpper ((simGenerateNetwork nickname g).1.player.mac_address) := by
        intro heq
        have hdash : '-' ∈
            (pyUpper ((simGenerateNetwork nickname g).1.player.mac_address)).data := by
          show '-' ∈ (pyUpper "00:15:00-2B-3A-D4").data
          decide
        rw [← heq] at hdash
        exact dashToColon_no_dash _ hdash
      simp [simValidateMacAddress, hne]
    · simp [simValidateGateway, simGenerateNetwork]
    · simp [simValidateSubnetMask, simGenerateNetwork]
    · have hup : pyUpper ((simGenerateNetwork nickname g).1.router.hostname) =
          "HOME" := by
        show pyUpper "home" = "HOME"
        decide
      simp [simValidateRouterName, hup]
    · unfold simValidateDeviceCount
      cases hi : pyInt value with
      | none => simp [hi]
      | some n =>
          have ht : (simGenerateNetwork nickname g).1.network.total_devices = 6 := rfl
          simp [hi, ht]

lemma string_append_inj_mid (a s x y : String) (h : a ++ x ++ s = a ++ y ++ s) :
    x = y := by
  apply String.ext
  have hd : (a ++ x ++ s).data = (a ++ y ++ s).data := congrArg String.data h
  simp only [String.data_append] at hd
  exact List.append_cancel_left (List.append_cancel_right hd)

lemma profileFilename_ne (dir n1 n2 : String)
    (h : cleanNickname n1 ≠ cleanNickname n2) :
    profileFilename dir n1 ≠ profileFilename dir n2 := by
  intro heq
  exact h (string_append_inj_mid (dir ++ "/") "_profile.json" _ _ heq)

lemma saveAugment_nickname (now : String) (p : Profile) :
    (saveAugment now p).nickname = p.nickname := rfl

lemma getFile_setFile_self (files : List (String × Profile)) (path : String)
    (p : Profile) : getFile (setFile files path p) path = some p := by
  induction files with
  | nil => simp [setFile, getFile, List.find?]
  | cons kv rest ih =>
      obtain ⟨k, v⟩ := kv
      by_cases hk : k = path
      · simp [setFile, hk, getFile, List.find?]
      · have hkb : (k == path) = false := beq_eq_false_iff_ne.mpr hk
        simpa [setFile, hk, getFile, List.find?, hkb] using ih

lemma getFile_setFile_ne (files : List (String × Profile)) (path path2 : String)
    (p : Profile) (h : path ≠ path2) :
    getFile (setFile files path p) path2 = getFile files path2 := by
  have hb : (path == path2) = false := beq_eq_false_iff_ne.mpr h
  induction files with
  | nil => simp [setFile, getFile, List.find?, hb]
  | cons kv rest ih =>
      obtain ⟨k, v⟩ := kv
      by_cases hk : k = path
      · rw [hk]
        simp [setFile, getFile, List.find?, hb]
      · by_cases h2 : k = path2
        · simp only [setFile, if_neg hk]
          simp [getFile, List.find?, h2]
        · have hkb : (k == path2) = false := beq_eq_false_iff_ne.mpr h2
          simp only [setFile, if_neg hk]
          simpa [getFile, List.find?, hkb] using ih

/-- C6 counterexample: `"Alice"` and `"alice"` are distinct nicknames
that are mapped to the same profile filename, and saving a profile with
nickname `"Alice"` overwrites the file previously stored for
`"alice"` — `load_profile "alice"` afterwards returns the `"Alice"`
profile. -/
theorem profile_filename_collision_counterexample :
    (("Alice" : String) ≠ "alice") ∧
    (profileFilename "data/profiles" "Alice" =
      profileFilename "data/profiles" "alice") ∧
    (load_profile "data/profiles"
        (save_profile "data/profiles" "2024-01-01T00:00:00"
          ⟨[("data/profiles/alice_profile.json",
              ⟨"alice", some "t0", some "t0", some defaultProgress⟩)],
            fun _ => true, fun _ => true, fun _ => true⟩
          ⟨"Alice", none, none, none⟩).1
        "alice" =
      some ⟨"Alice", some "2024-01-01T00:00:00", some "2024-01-01T00:00:00",
            some defaultProgress⟩) := by
  refine ⟨?_, ?_, ?_⟩ <;> decide

/-- C6 (amended): profiles are persisted one file per *cleaned*
nickname: whenever two nicknames differ after cleaning (keep only
alphanumerics, underscore and dash, then lower-case), their filenames
differ, saving one leaves the stored profile of the other unchanged,
and a subsequent load returns what was last saved under the own
nickname. -/
theorem save_profile_frame (dir now n2 : String) (fs : FileSys) (p : Profile)
    (hclean : cleanNickname p.nickname ≠ cleanNickname n2) :
    (profileFilename dir p.nickname ≠ profileFilename dir n2) ∧
    (load_profile dir (save_profile dir now fs p).1 n2 = load_profile dir fs n2) ∧
    (fs.writeOk (profileFilename dir p.nickname) = true →
      fs.readOk (profileFilename dir p.nickname) = true →
      load_profile dir (save_profile dir now fs p).1 p.nickname =
        some (saveAugment now p)) := by
  have hne := profileFilename_ne dir p.nickname n2 hclean
  refine ⟨hne, ?_, ?_⟩
  · cases hw : fs.writeOk (profileFilename dir p.nickname)
    · simp [save_profile, saveAugment_nickname, hw]
    · simp [save_profile, load_profile, saveAugment_nickname, hw,
        getFile_setFile_ne _ _ _ _ hne]
  · intro hw hr
    simp [save_profile, load_profile, saveAugment_nickname, hw, hr,
      getFile_setFile_self]

/-- C6 witness: concrete instantiation of the frame theorem for the
cleaned-distinct nicknames `"Bob"` and `"alice"`. -/
theorem save_profile_frame_witness :
    profileFilename "data/profiles" "Bob" ≠ profileFilename "data/profiles" "alice" :=
  (save_profile_frame "data/profiles" "2024-01-01T00:00:00" "alice"
    ⟨[], fun _ => true, fun _ => true, fun _ => true⟩
    ⟨"Bob", none, none, none⟩ (by decide)).1

/-- C7: the save/load file operations are total and signal failure
through their return values: `save_profile` succeeds exactly when the
write succeeds and otherwise leaves the file system unchanged;
`delete_profile` succeeds exactly when the file exists and the removal
succeeds, and otherwise leaves the file system unchanged;
`load_profile` returns `none` exactly when the file is absent or
cannot be read or parsed; `list_profiles` always returns a list, with
at most one entry per stored file. -/
theorem save_load_error_signalling (dir now nickname : String)
    (fs : FileSys) (p : Profile) :
    ((save_profile dir now fs p).2.1 =
      fs.writeOk (profileFilename dir p.nickname)) ∧
    ((save_profile dir now fs p).2.1 = false →
      (save_profile dir now fs p).1 = fs) ∧
    ((delete_profile dir fs nickname).2.1 =
      ((getFile fs.files (profileFilename dir nickname)).isSome &&
        fs.removeOk (profileFilename dir nickname))) ∧
    ((delete_profile dir fs nickname).2.1 = false →
      (delete_profile dir fs nickname).1 = fs) ∧
    (load_profile dir fs nickname = none ↔
      (getFile fs.files (profileFilename dir nickname) = none ∨
        fs.readOk (profileFilename dir nickname) = false)) ∧
    ((list_profiles fs).length ≤ fs.files.length) := by
  refine ⟨?_, ?_, ?_, ?_, ?_, ?_⟩
  · cases hw : fs.writeOk (profileFilename dir p.nickname) <;>
      simp [save_profile, saveAugment_nickname, hw]
  · intro hfail
    cases hw : fs.writeOk (profileFilename dir p.nickname)
    · simp [save_profile, saveAugment_nickname, hw]
    · rw [(by simp [save_profile, saveAugment_nickname, hw] :
        (save_profile dir now fs p).2.1 = true)] at hfail
      exact absurd hfail (by simp)
  · cases hg : getFile fs.files (profileFilename dir nickname) with
    | none => simp [delete_profile, hg]
    | some q =>
        cases hr : fs.removeOk (profileFilename dir nickname) <;>
          simp [delete_profile, hg, hr]
  · intro hfail
    cases hg : getFile fs.files (profileFilename dir nickname) with
    | none => simp [delete_profile, hg]
    | some q =>
        cases hr : fs.removeOk (profileFilename dir nickname)
        · simp [delete_profile, hg, hr]
        · rw [(by simp [delete_profile, hg, hr] :
            (delete_profile dir fs nickname).2.1 = true)] at hfail
          exact absurd hfail (by simp)
  · cases hg : getFile fs.files (profileFilename dir nickname) with
    | none => simp [load_profile, hg]
    | some q =>
        cases hr : fs.readOk (profileFilename dir nickname) <;>
          simp [load_profile, hg, hr]
  · have hperm := List.perm_insertionSort
      (fun a b : ProfileInfo => b.saved_at ≤ a.saved_at)
      (fs.files.filterMap (fun kv =>
        if kv.1.endsWith "_profile.json" && fs.readOk kv.1 then
          some (ProfileInfo.mk kv.2.nickname ((kv.2.saved_at).getD "Unknown") kv.1)
        else none))
    rw [list_profiles, hperm.length_eq]
    exact List.length_filterMap_le _ _

/-- C7 witness: when the write oracle refuses the profile path, saving
reports failure and the file system is returned unchanged. -/
theorem save_load_error_signalling_witness :
    (save_profile "data/profiles" "2024-01-01T00:00:00"
        ⟨[], fun _ => false, fun _ => true, fun _ => true⟩
        ⟨"Bob", none, none, none⟩).1 =
      ⟨[], fun _ => false, fun _ => true, fun _ => true⟩ :=
  (save_load_error_signalling "data/profiles" "2024-01-01T00:00:00" "Bob"
    ⟨[], fun _ => false, fun _ => true, fun _ => true⟩
    ⟨"Bob", none, none, none⟩).2.1 (by decide)

lemma find?_filter_key (l : List (String × SVal)) (pred : String × SVal → Bool)
    (k : String) (hp : ∀ kv ∈ l, kv.1 = k → pred kv = true) :
    (l.filter pred).find? (fun kv => kv.1 == k) =
      l.find? (fun kv => kv.1 == k) := by
  induction l with
  | nil => rfl
  | cons a t ih =>
      by_cases hak : a.1 = k
      · have hpa : pred a = true := hp a (by simp) hak
        simp [List.filter, hpa, List.find?, hak]
      · have hab : (a.1 == k) = false := beq_eq_false_iff_ne.mpr hak
        have ht : ∀ kv ∈ t, kv.1 = k → pred kv = true := by
          intro kv hkv hk1
          exact hp kv (by simp [hkv]) hk1
        cases hpa : pred a <;>
          simp [List.filter, hpa, List.find?, hab, ih ht]

lemma lookupKey_append (a b : List (String × SVal)) (k : String) :
    lookupKey (a ++ b) k = (lookupKey a k).or (lookupKey b k) := by
  unfold lookupKey
  rw [List.find?_append]
  cases a.find? (fun kv => kv.1 == k) <;> simp

lemma lookupKey_mergeWithDefaults (d : List (String × SVal)) (k : String) :
    lookupKey (mergeWithDefaults d) k =
      (match lookupKey d k with
       | some v => some v
       | none => lookupKey defaultSettings k) := by
  unfold mergeWithDefaults
  rw [lookupKey_append]
  cases hdk : lookupKey d k with
  | some v => simp
  | none =>
      simp only [Option.none_or]
      have hfilter := find?_filter_key defaultSettings
        (fun kv => (lookupKey d kv.1).isNone) k
        (by intro kv _ hk1; simp [hk1, hdk])
      show Option.map (fun kv => kv.2)
          (List.find? (fun kv => kv.1 == k)
            (List.filter (fun kv => (lookupKey d kv.1).isNone) defaultSettings)) =
        Option.map (fun kv => kv.2)
          (List.find? (fun kv => kv.1 == k) defaultSettings)
      exact congrArg _ hfilter

/-- C8 counterexample: with the persistent settings file absent but a
bundled `settings.json` present containing `master_volume = 10`,
`load_settings` returns the bundled value rather than the full default
settings, contradicting the claim that an absent file yields the
defaults. -/
theorem load_settings_fallback_counterexample :
    (lookupKey (load_settings .absent (.parsed [("master_volume", .i 10)]))
        "master_volume" = some (.i 10)) ∧
    (lookupKey defaultSettings "master_volume" = some (.i 70)) ∧
    (load_settings .absent (.parsed [("master_volume", .i 10)]) ≠
      defaultSettings) := by
  refine ⟨?_, ?_, ?_⟩ <;> decide

/-- C8 (amended): `load_settings` is total and always yields a complete
settings record — every default key is present in the result.  A
parseable persistent file keeps its own values and takes defaults for
missing keys; an unparseable persistent file yields the full defaults;
when the persistent file is absent the bundled `settings.json` is
consulted the same way, and only when it is absent or unparseable too
are the full defaults returned. -/
theorem load_settings_complete (pers bund : FileState) :
    (defaultSettings.all
      (fun kv => (lookupKey (load_settings pers bund) kv.1).isSome) = true) ∧
    (∀ d k, lookupKey (load_settings (.parsed d) bund) k =
      (match lookupKey d k with
       | some v => some v
       | none => lookupKey defaultSettings k)) ∧
    (load_settings .unparseable bund = defaultSettings) ∧
    (∀ d k, lookupKey (load_settings .absent (.parsed d)) k =
      (match lookupKey d k with
       | some v => some v
       | none => lookupKey defaultSettings k)) ∧
    (load_settings .absent .absent = defaultSettings) ∧
    (load_settings .absent .unparseable = defaultSettings) := by
  have hmergeSome : ∀ (d : List (String × SVal)) (kv : String × SVal),
      kv ∈ defaultSettings →
      (lookupKey (mergeWithDefaults d) kv.1).isSome = true := by
    intro d kv hkv
    rw [lookupKey_mergeWithDefaults]
    cases hd : lookupKey d kv.1 with
    | some v => simp
    | none =>
        simp only []
        fin_cases hkv <;> decide
  refine ⟨?_, ?_, rfl, ?_, rfl, rfl⟩
  · rw [List.all_eq_true]
    intro kv hkv
    cases pers with
    | parsed d => exact hmergeSome d kv hkv
    | unparseable =>
        have hdef : (lookupKey defaultSettings kv.1).isSome = true := by
          fin_cases hkv <;> decide
        exact hdef
    | absent =>
        cases bund with
        | parsed d => exact hmergeSome d kv hkv
        | unparseable =>
            have hdef : (lookupKey defaultSettings kv.1).isSome = true := by
              fin_cases hkv <;> decide
            exact hdef
        | absent =>
            have hdef : (lookupKey defaultSettings kv.1).isSome = true := by
              fin_cases hkv <;> decide
            exact hdef
  · intro d k
    exact lookupKey_mergeWithDefaults d k
  · intro d k
    exact lookupKey_mergeWithDefaults d k

lemma m1CheckScan_mono (m : Mission1) (k : M1Key)
    (h : m1Completed m k = true) :
    m1Completed (m1CheckScanNetworkComplete m).2 k = true := by
  simp only [m1CheckScanNetworkComplete]
  split_ifs <;> cases k <;> simp_all [m1Completed]

lemma m1CheckIdentify_mono (m : Mission1) (k : M1Key)
    (h : m1Completed m k = true) :
    m1Completed (m1CheckIdentifyDevicesComplete m).2 k = true := by
  simp only [m1CheckIdentifyDevicesComplete]
  split_ifs <;> cases k <;> simp_all [m1Completed]

lemma m1CheckFindRisky_mono (m : Mission1) (k : M1Key)
    (h : m1Completed m k = true) :
    m1Completed (m1CheckFindRiskyPortsComplete m).2 k = true := by
  simp only [m1CheckFindRiskyPortsComplete]
  split_ifs <;> cases k <;> simp_all [m1Completed]

lemma m1CheckIsolate_mono (iso : List String) (m : Mission1) (k : M1Key)
    (h : m1Completed m k = true) :
    m1Completed (m1CheckIsolateThreatsComplete iso m).2 k = true := by
  simp only [m1CheckIsolateThreatsComplete]
  split_ifs <;> cases k <;> simp_all [m1Completed]

lemma m1CheckBlock_mono (blk : List Nat) (m : Mission1) (k : M1Key)
    (h : m1Completed m k = true) :
    m1Completed (m1CheckBlockRiskyPortsComplete blk m).2 k = true := by
  simp only [m1CheckBlockRiskyPortsComplete]
  split_ifs <;> cases k <;> simp_all [m1Completed]

lemma m1CheckAudit_mono (iso : List String) (blk : List Nat) (m : Mission1)
    (k : M1Key) (h : m1Completed m k = true) :
    m1Completed (m1CheckFinalAuditComplete iso blk m).2 k = true := by
  simp only [m1CheckFinalAuditComplete]
  split_ifs <;> cases k <;> simp_all [m1Completed]

lemma m1Update_mono (ts : TerminalState) (m : Mission1) (k : M1Key)
    (h : m1Completed m k = true) :
    m1Completed (m1UpdateProgress ts m) k = true := by
  have h0 : m1Completed
      { m with commands_used := ts.commands_history,
               devices_discovered := ts.devices_discovered } k = true := by
    cases k <;> exact h
  simp only [m1UpdateProgress]
  exact m1CheckAudit_mono _ _ _ _
    (m1CheckBlock_mono _ _ _
      (m1CheckIsolate_mono _ _ _
        (m1CheckIdentify_mono _ _
          (m1CheckScan_mono _ _ h0))))

lemma m1Apply_mono (s : M1Method) (m : Mission1) (k : M1Key)
    (h : m1Completed m k = true) :
    m1Completed (m1Apply s m) k = true := by
  cases s with
  | checkScan => exact m1CheckScan_mono m k h
  | checkIdentify => exact m1CheckIdentify_mono m k h
  | checkFindRisky => exact m1CheckFindRisky_mono m k h
  | checkIsolate iso => exact m1CheckIsolate_mono iso m k h
  | checkBlock blk => exact m1CheckBlock_mono blk m k h
  | checkFinalAudit iso blk => exact m1CheckAudit_mono iso blk m k h
  | update ts => exact m1Update_mono ts m k h

lemma m2Apply_mono (s : M2Method) (m : Mission2) (k : M2Key)
    (h : m2Completed m k = true) :
    m2Completed (m2Apply s m) k = true := by
  cases s <;> cases k <;>
    simp_all only [m2Apply, m2CheckWiresharkDownloaded, m2MarkWiresharkOpened,
      m2SubmitSuspiciousIp, m2ReportThreatFound, m2CheckReportComplete,
      m2UpdateProgress, m2Completed] <;>
    split_ifs <;> simp_all

lemma m3Apply_mono (s : M3Method) (m : Mission3) (k : M3Key)
    (h : m3Completed m k = true) :
    m3Completed (m3Apply s m) k = true := by
  cases s <;> cases k <;>
    simp_all only [m3Apply, m3CheckPcapAnalyzerDownloaded,
      m3MarkPcapAnalyzerOpened, m3Completed] <;>
    split_ifs <;> simp_all

lemma m1_foldl_mono (l : List M1Method) (m : Mission1) (k : M1Key)
    (h : m1Completed m k = true) :
    m1Completed (l.foldl (fun a s => m1Apply s a) m) k = true := by
  induction l generalizing m with
  | nil => exact h
  | cons s rest ih => exact ih (m1Apply s m) (m1Apply_mono s m k h)

lemma m2_foldl_mono (l : List M2Method) (m : Mission2) (k : M2Key)
    (h : m2Completed m k = true) :
    m2Completed (l.foldl (fun a s => m2Apply s a) m) k = true := by
  induction l generalizing m with
  | nil => exact h
  | cons s rest ih => exact ih (m2Apply s m) (m2Apply_mono s m k h)

lemma m3_foldl_mono (l : List M3Method) (m : Mission3) (k : M3Key)
    (h : m3Completed m k = true) :
    m3Completed (l.foldl (fun a s => m3Apply s a) m) k = true := by
  induction l generalizing m with
  | nil => exact h
  | cons s rest ih => exact ih (m3Apply s m) (m3Apply_mono s m k h)

/-- C9: objective completion is monotone in all three mission classes —
no state-mutating method ever changes a `completed` flag from True back
to False, so a completed objective stays completed across every
sequence of method calls. -/
theorem objective_completion_monotone :
    (∀ (l : List M1Method) (m : Mission1) (k : M1Key),
      m1Completed m k = true →
        m1Completed (l.foldl (fun a s => m1Apply s a) m) k = true) ∧
    (∀ (l : List M2Method) (m : Mission2) (k : M2Key),
      m2Completed m k = true →
        m2Completed (l.foldl (fun a s => m2Apply s a) m) k = true) ∧
    (∀ (l : List M3Method) (m : Mission3) (k : M3Key),
      m3Completed m k = true →
        m3Completed (l.foldl (fun a s => m3Apply s a) m) k = true) :=
  ⟨m1_foldl_mono, m2_foldl_mono, m3_foldl_mono⟩

/-- C9 witness: a Mission 2 state with the suspicious IP found keeps it
found across a concrete sequence of method calls. -/
theorem objective_completion_monotone_witness :
    m2Completed
      ([M2Method.checkReport, M2Method.reportThreat "telnet_scan",
        M2Method.update []].foldl (fun a s => m2Apply s a)
        { m2Init with objectives := { m2Init.objectives with find_suspicious_ip := true } })
      M2Key.findIp = true :=
  objective_completion_monotone.2.1
    [M2Method.checkReport, M2Method.reportThreat "telnet_scan", M2Method.update []]
    { m2Init with objectives := { m2Init.objectives with find_suspicious_ip := true } }
    M2Key.findIp (by decide)

lemma filter_req_and_completed_le (t : List Objective) :
    (t.filter (fun o => o.required && o.completed)).length ≤
      (t.filter (fun o => o.required)).length := by
  rw [← List.countP_eq_length_filter, ← List.countP_eq_length_filter]
  exact List.countP_mono_left (by intro o _ h; simp at h; exact h.1)

lemma all_req_completed_iff_counts (objs : List Objective) :
    (objs.all (fun o => !o.required || o.completed) = true) ↔
    ((objs.filter (fun o => o.required && o.completed)).length =
      (objs.filter (fun o => o.required)).length) := by
  induction objs with
  | nil => simp
  | cons o t ih =>
      cases hr : o.required <;> cases hc : o.completed
      · simpa [List.all_cons, List.filter_cons, hr, hc] using ih
      · simpa [List.all_cons, List.filter_cons, hr, hc] using ih
      · have hle := filter_req_and_completed_le t
        simp [List.all_cons, List.filter_cons, hr, hc]
        omega
      · simp [List.all_cons, List.filter_cons, hr, hc, Nat.add_right_cancel_iff, ih]

lemma missionComplete_iff_pct_aux (objs : List Objective)
    (hany : objs.any (fun o => o.required) = true) :
    missionComplete objs = true ↔ completionPercentage objs = 100 := by
  unfold missionComplete completionPercentage
  obtain ⟨o, ho, hro⟩ := List.any_eq_true.mp hany
  have htot : 0 < (objs.filter (fun o => o.required)).length :=
    List.length_pos_of_mem (List.mem_filter.mpr ⟨ho, hro⟩)
  rw [if_pos htot]
  have hz : (((objs.filter (fun o => o.required)).length : ℚ)) ≠ 0 := by
    exact_mod_cast htot.ne'
  constructor
  · intro hall
    rw [(all_req_completed_iff_counts objs).mp hall, div_self hz]
    norm_num
  · intro hpct
    apply (all_req_completed_iff_counts objs).mpr
    have h1 : ((objs.filter (fun o => o.required && o.completed)).length : ℚ) =
        ((objs.filter (fun o => o.required)).length : ℚ) := by
      rw [div_mul_eq_mul_div, div_eq_iff hz] at hpct
      linarith
    exact_mod_cast h1

/-- C10: in each of the three mission classes (and in general whenever
at least one objective is required), `is_mission_complete` returns True
exactly when `get_completion_percentage` returns 100. -/
theorem mission_complete_iff_percentage_100 :
    (∀ objs : List Objective, objs.any (fun o => o.required) = true →
      (missionComplete objs = true ↔ completionPercentage objs = 100)) ∧
    (∀ m : Mission1,
      m1IsMissionComplete m = true ↔ m1GetCompletionPercentage m = 100) ∧
    (∀ m : Mission2,
      m2IsMissionComplete m = true ↔ m2GetCompletionPercentage m = 100) ∧
    (∀ m : Mission3,
      m3IsMissionComplete m = true ↔ m3GetCompletionPercentage m = 100) := by
  refine ⟨missionComplete_iff_pct_aux, ?_, ?_, ?_⟩
  · intro m
    exact missionComplete_iff_pct_aux (m1ObjectiveList m) (by simp [m1ObjectiveList])
  · intro m
    exact missionComplete_iff_pct_aux (m2ObjectiveList m) (by simp [m2ObjectiveList])
  · intro m
    exact missionComplete_iff_pct_aux (m3ObjectiveList m) (by simp [m3ObjectiveList])

/-- C10 witness: for the one-objective dictionary with `required` and
`completed` both True, completion and the 100-percent reading agree. -/
theorem mission_complete_iff_percentage_100_witness :
    missionComplete [⟨true, true⟩] = true ↔
      completionPercentage [⟨true, true⟩] = 100 :=
  mission_complete_iff_percentage_100.1 [⟨true, true⟩] (by decide)

end CyberHero
